import Mathlib

/-!
Shallow embedding of the data-ingestion and filtering logic of `dashboard.py`
(EPA fuel-economy dashboard).

The embedded pieces are:
* the cleaning pipeline inside `load_data` (column projection, MPG-positivity
  filtering, `dropna`, type coercion, 20-year window);
* the fetch/unzip/parse boundary of `load_data`, whose exceptions are caught by
  the surrounding `try/except` which returns `None`;
* the `@st.cache_data` memoization wrapping `load_data`;
* the filter block of `main` (year range, make, fuelType, cylinders).

Pandas cells are modelled by `Value` (a number, a string, or null/NaN); a
dataframe by `Table` (a list of present columns plus a list of rows). Machine
floats never matter for the properties at issue, so numbers are `Int`.
-/

/-- A cell value: a number, a string, or null (pandas NaN). -/
inductive Value where
  | num (n : Int)
  | str (s : String)
  | null
deriving DecidableEq, Repr

/-- The column names touched by `load_data` and `main` (source CSV names). -/
inductive Col where
  | year | make | model | VClass | drive | trans | fuelType
  | cylinders | displ | city08 | highway08 | comb08 | co2TailpipeGpm | fuelCost08
deriving DecidableEq, Repr

/-- One dataframe row: a cell for each column of the fixed schema. A `Table`
carries the list of columns actually present; cells of absent columns are
never consulted. -/
structure Row where
  year : Value
  make : Value
  model : Value
  VClass : Value
  drive : Value
  trans : Value
  fuelType : Value
  cylinders : Value
  displ : Value
  city08 : Value
  highway08 : Value
  comb08 : Value
  co2TailpipeGpm : Value
  fuelCost08 : Value
deriving DecidableEq, Repr

/-- `row[c]`: look a cell up by column name. -/
def Row.get (r : Row) : Col → Value
  | .year => r.year
  | .make => r.make
  | .model => r.model
  | .VClass => r.VClass
  | .drive => r.drive
  | .trans => r.trans
  | .fuelType => r.fuelType
  | .cylinders => r.cylinders
  | .displ => r.displ
  | .city08 => r.city08
  | .highway08 => r.highway08
  | .comb08 => r.comb08
  | .co2TailpipeGpm => r.co2TailpipeGpm
  | .fuelCost08 => r.fuelCost08

/-- A dataframe: the columns present in it, and its rows. -/
structure Table where
  cols : List Col
  rows : List Row
deriving DecidableEq, Repr

/-- `essential_cols` of `load_data`: the fixed 14-column allow-list. -/
def essential_cols : List Col :=
  [.year, .make, .model, .VClass, .drive, .trans, .fuelType, .cylinders,
   .displ, .city08, .highway08, .comb08, .co2TailpipeGpm, .fuelCost08]

/-- `mpg_cols` of `load_data`. -/
def mpg_cols : List Col := [.city08, .highway08, .comb08]

/-- Pandas `value > 0`: true only for positive numbers (`NaN > 0` is False;
non-numeric cells never satisfy the comparison). -/
def Value.gtZero : Value → Bool
  | .num n => decide (0 < n)
  | _ => false

/-- Pandas `value >= n` for the year filters (year cells are numeric there). -/
def Value.geInt : Value → Int → Bool
  | .num m, n => decide (n ≤ m)
  | _, _ => false

/-- Pandas `value <= n`. -/
def Value.leInt : Value → Int → Bool
  | .num m, n => decide (m ≤ n)
  | _, _ => false

/-- Pandas `isna` on one cell. -/
def Value.isNull : Value → Bool
  | .null => true
  | _ => false

/-- `available_cols = [col for col in essential_cols if col in df.columns]`
followed by `df = df[available_cols].copy()`. -/
def projectStep (df : Table) : Table :=
  { cols := essential_cols.filter (fun c => decide (c ∈ df.cols)),
    rows := df.rows }

/-- The MPG-positivity loop:
`for col in available_mpg_cols: df = df[df[col] > 0]`. -/
def mpgStep (df : Table) : Table :=
  let available_mpg_cols := mpg_cols.filter (fun c => decide (c ∈ df.cols))
  { cols := df.cols,
    rows := available_mpg_cols.foldl
      (fun rs c => rs.filter (fun r => (r.get c).gtZero)) df.rows }

/-- `df = df.dropna(subset=['year', 'make'] + available_mpg_cols)`: pandas
raises `KeyError` (load failure) when `year` or `make` is not a column of the
projected frame; the filtered MPG columns are present by construction. -/
def dropnaStep (df : Table) : Option Table :=
  if Col.year ∈ df.cols ∧ Col.make ∈ df.cols then
    let subset := [Col.year, Col.make] ++ mpg_cols.filter (fun c => decide (c ∈ df.cols))
    some { cols := df.cols,
           rows := df.rows.filter (fun r => subset.all (fun c => !(r.get c).isNull)) }
  else none

/-- Accumulate decimal digits; any non-digit character fails the parse. -/
def parseDigitsAux : List Char → Nat → Option Nat
  | [], acc => some acc
  | c :: cs, acc =>
    if c.isDigit then parseDigitsAux cs (acc * 10 + (c.toNat - 48)) else none

/-- Numeric-string parsing standing in for pandas' parsing of a cell: an
optional minus sign followed by one or more decimal digits. -/
def parseIntString (s : String) : Option Int :=
  match s.data with
  | [] => none
  | '-' :: c :: cs =>
    if c.isDigit then (parseDigitsAux (c :: cs) 0).map (fun n => -(n : Int)) else none
  | c :: cs =>
    if c.isDigit then (parseDigitsAux (c :: cs) 0).map (fun n => (n : Int)) else none

/-- `astype(int)` on one cell: numbers pass through, numeric strings parse,
anything else raises (propagated as `none`). -/
def astypeInt : Value → Option Int
  | .num n => some n
  | .str s => parseIntString s
  | .null => none

/-- `pd.to_numeric(x, errors='coerce')` on one cell: non-numeric values become
null instead of raising. -/
def toNumericCoerce : Value → Value
  | .num n => .num n
  | .str s =>
    match parseIntString s with
    | some n => .num n
    | none => .null
  | .null => .null

/-- The per-row effect of the type-optimization block:
`df['year'] = df['year'].astype(int)` (failure on any row fails the load) and
`pd.to_numeric(..., errors='coerce')` on `cylinders` / `displ` when present. -/
def coerceRow (cols : List Col) (r : Row) : Option Row :=
  (astypeInt r.year).map fun y =>
    { r with
      year := .num y,
      cylinders := if Col.cylinders ∈ cols then toNumericCoerce r.cylinders else r.cylinders,
      displ := if Col.displ ∈ cols then toNumericCoerce r.displ else r.displ }

/-- `coerceRow` over all rows; any row failing `astype(int)` fails the load. -/
def coerceRows (cols : List Col) : List Row → Option (List Row)
  | [] => some []
  | r :: rs =>
    match coerceRow cols r, coerceRows cols rs with
    | some r', some rs' => some (r' :: rs')
    | _, _ => none

/-- The type-optimization block of `load_data`; `df['year']` raises `KeyError`
when `year` is not a column. -/
def coerceTypes (df : Table) : Option Table :=
  if Col.year ∈ df.cols then
    (coerceRows df.cols df.rows).map fun rs => { cols := df.cols, rows := rs }
  else none

/-- `df = df[df['year'] >= (current_year - 20)]`. Note: no upper bound is
applied to `year`. -/
def yearWindow (current_year : Int) (df : Table) : Table :=
  { cols := df.cols,
    rows := df.rows.filter (fun r => (r.get .year).geInt (current_year - 20)) }

/-- The cleaning pipeline of `load_data` applied to the parsed CSV frame,
with `current_year` (`pd.Timestamp.now().year`) as a parameter. `none` models
an exception reaching the `except` clause, which returns `None`. -/
def clean (current_year : Int) (df : Table) : Option Table :=
  (dropnaStep (mpgStep (projectStep df))).bind fun d =>
    (coerceTypes d).map fun d2 => yearWindow current_year d2

/-- One entry of the downloaded ZIP archive: either unparseable as CSV, or a
parsed frame. -/
inductive Entry where
  | badCsv
  | csv (df : Table)
deriving DecidableEq

/-- The body of the HTTP response: either not a valid ZIP container, or an
archive with a list of entries (in `namelist()` order). -/
inductive Body where
  | badArchive
  | archive (entries : List Entry)
deriving DecidableEq

/-- The outcome of `requests.get`: a raised transport error, or a response
with a status code and a body. `requests.get` does not raise on non-2xx
statuses. -/
inductive FetchResult where
  | transportError
  | response (status : Nat) (body : Body)
deriving DecidableEq

/-- The whole `try` block of `load_data`: fetch, open the archive, take the
first entry (`namelist()[0]` raises `IndexError` on an empty archive), parse
it as CSV, then clean. Every exception is caught by `except`, which returns
`None`. The response's status code is never inspected. -/
def load_pipeline (current_year : Int) : FetchResult → Option Table
  | .transportError => none
  | .response _ .badArchive => none
  | .response _ (.archive []) => none
  | .response _ (.archive (.badCsv :: _)) => none
  | .response _ (.archive (.csv df :: _)) => clean current_year df

/-- State of the `@st.cache_data` decorator on `load_data` (which takes no
parameters, so there is a single cache slot): the memoized return value when
one exists — `None` returns are cached like any other value — plus a count of
executed network fetches. -/
structure LoadState where
  cache : Option (Option Table)
  fetchCount : Nat
deriving DecidableEq, Repr

/-- `load_data` behind `@st.cache_data`: a cache hit returns the memoized
value without running the body; a miss runs the pipeline once, caches its
return value (even `None`), and counts the fetch. -/
def load_data (current_year : Int) (f : FetchResult) (s : LoadState) :
    Option Table × LoadState :=
  match s.cache with
  | some r => (r, s)
  | none =>
    let r := load_pipeline current_year f
    (r, { cache := some r, fetchCount := s.fetchCount + 1 })

/-- The sidebar filter selection of `main`: `None` models the `전체` (All)
choice for the optional widgets. -/
structure FilterSpec where
  yearLo : Int
  yearHi : Int
  make : Option String
  fuelType : Option String
  cylinders : Option Int
deriving DecidableEq, Repr

/-- `filtered_df[(filtered_df['year'] >= lo) & (filtered_df['year'] <= hi)]`. -/
def yearRangeFilter (lo hi : Int) (rows : List Row) : List Row :=
  rows.filter (fun r => (r.get .year).geInt lo && (r.get .year).leInt hi)

/-- `filtered_df[filtered_df['make'] == selected_make]`. -/
def makeFilter (m : String) (rows : List Row) : List Row :=
  rows.filter (fun r => r.get .make == Value.str m)

/-- `filtered_df[filtered_df['fuelType'] == selected_fuel]`. -/
def fuelTypeFilter (ft : String) (rows : List Row) : List Row :=
  rows.filter (fun r => r.get .fuelType == Value.str ft)

/-- `filtered_df[filtered_df['cylinders'] == float(selected_cylinders)]`. -/
def cylindersFilter (n : Int) (rows : List Row) : List Row :=
  rows.filter (fun r => r.get .cylinders == Value.num n)

/-- The filter block of `main`: the year-range filter always applies; the
make filter applies when a make is selected; the fuelType and cylinders
filters apply when selected and when their column exists. -/
def applyFilters (cols : List Col) (spec : FilterSpec) (rows : List Row) : List Row :=
  let r1 := yearRangeFilter spec.yearLo spec.yearHi rows
  let r2 := match spec.make with
    | none => r1
    | some m => makeFilter m r1
  let r3 := match spec.fuelType with
    | none => r2
    | some ft => if Col.fuelType ∈ cols then fuelTypeFilter ft r2 else r2
  match spec.cylinders with
  | none => r3
  | some n => if Col.cylinders ∈ cols then cylindersFilter n r3 else r3

/-- The spec's filter contract, stated from its words: a record satisfies the
filter specification when its year lies in the year range AND it matches each
of the provided optional constraints (AND semantics). -/
def specMatches (spec : FilterSpec) (r : Row) : Prop :=
  (r.get .year).geInt spec.yearLo = true ∧
  (r.get .year).leInt spec.yearHi = true ∧
  (∀ m ∈ spec.make, r.get Col.make = Value.str m) ∧
  (∀ ft ∈ spec.fuelType, r.get Col.fuelType = Value.str ft) ∧
  (∀ n ∈ spec.cylinders, r.get Col.cylinders = Value.num n)

/-! ### Concrete tables used as witnesses and counterexamples -/

/-- A fully valid row (all cells present and well-typed, model year 2026). -/
def baseRow : Row :=
  { year := .num 2026, make := .str "Toyota", model := .str "Corolla",
    VClass := .str "Compact", drive := .str "FWD", trans := .str "Auto",
    fuelType := .str "Regular", cylinders := .num 4, displ := .num 2,
    city08 := .num 30, highway08 := .num 38, comb08 := .num 33,
    co2TailpipeGpm := .num 270, fuelCost08 := .num 1500 }

/-- A source frame with all 14 columns and one valid row. -/
def okTable : Table := { cols := essential_cols, rows := [baseRow] }

/-- A row violating MPG positivity: `city08 = 0`. -/
def zeroCityRow : Row := { baseRow with city08 := .num 0 }

/-- A second valid row. -/
def hondaRow : Row :=
  { baseRow with make := .str "Honda", model := .str "Civic", city08 := .num 25 }

/-- The synthetic archive's frame: three rows, exactly one with `city08 = 0`. -/
def syntheticTable : Table :=
  { cols := essential_cols, rows := [baseRow, zeroCityRow, hondaRow] }

/-- The 13 columns of a source frame missing `cylinders` entirely. -/
def noCylCols : List Col :=
  [.year, .make, .model, .VClass, .drive, .trans, .fuelType,
   .displ, .city08, .highway08, .comb08, .co2TailpipeGpm, .fuelCost08]

/-- A source frame with no `cylinders` column. -/
def noCylTable : Table := { cols := noCylCols, rows := [baseRow] }

/-- A row with a future model year (2031). -/
def futureRow : Row := { baseRow with year := .num 2031 }

/-- A source frame holding only the future-year row. -/
def futureTable : Table := { cols := essential_cols, rows := [futureRow] }

/-- A row whose `cylinders` cell is a non-numeric string. -/
def badCylRow : Row := { baseRow with cylinders := .str "four" }

/-- A source frame holding only the non-numeric-cylinders row. -/
def badCylTable : Table := { cols := essential_cols, rows := [badCylRow] }

/-- The non-numeric-cylinders row after coercion: `cylinders` became null. -/
def badCylOutRow : Row := { badCylRow with cylinders := .null }

/-- A source frame all of whose rows are removed by the MPG-positivity step. -/
def zeroMpgTable : Table := { cols := essential_cols, rows := [zeroCityRow] }

/-- The cache state before any call: empty cache, no fetches. -/
def initState : LoadState := { cache := none, fetchCount := 0 }

/-! ### Helper lemmas about the pipeline stages -/

lemma mem_foldl_filter (p : Col → Row → Bool) (l : List Col) (rows : List Row) (r : Row) :
    r ∈ l.foldl (fun rs c => rs.filter (fun x => p c x)) rows ↔
      r ∈ rows ∧ ∀ c ∈ l, p c r = true := by
  induction l generalizing rows with
  | nil => simp
  | cons c cs ih =>
    simp only [List.foldl_cons, ih, List.mem_filter, List.mem_cons, forall_eq_or_imp]
    tauto

lemma mem_mpgStep (df : Table) (r : Row) :
    r ∈ (mpgStep df).rows ↔
      r ∈ df.rows ∧ ∀ c ∈ mpg_cols, c ∈ df.cols → (r.get c).gtZero = true := by
  simp only [mpgStep, mem_foldl_filter, List.mem_filter, decide_eq_true_eq]
  constructor
  · rintro ⟨h1, h2⟩
    exact ⟨h1, fun c hc hcc => h2 c ⟨hc, hcc⟩⟩
  · rintro ⟨h1, h2⟩
    exact ⟨h1, fun c hc => h2 c hc.1 hc.2⟩

lemma dropnaStep_eq (df d : Table) (h : dropnaStep df = some d) :
    Col.year ∈ df.cols ∧ Col.make ∈ df.cols ∧ d.cols = df.cols ∧
    ∀ r ∈ d.rows, r ∈ df.rows ∧ (r.get .year).isNull = false ∧
      (r.get .make).isNull = false ∧
      ∀ c ∈ mpg_cols, c ∈ df.cols → (r.get c).isNull = false := by
  unfold dropnaStep at h
  split at h
  · rename_i hc
    injection h with h
    refine ⟨hc.1, hc.2, by rw [← h], ?_⟩
    intro r hr
    rw [← h] at hr
    simp only [List.mem_filter] at hr
    obtain ⟨hrm, hall⟩ := hr
    rw [List.all_eq_true] at hall
    have hget : ∀ c ∈ ([Col.year, Col.make] ++
        mpg_cols.filter (fun c => decide (c ∈ df.cols))), (r.get c).isNull = false := by
      intro c hcmem
      simpa using hall c hcmem
    refine ⟨hrm, hget Col.year (by simp), hget Col.make (by simp), ?_⟩
    intro c hc1 hc2
    exact hget c (by simp [List.mem_append, List.mem_filter, hc1, hc2])
  · exact Option.noConfusion h

lemma mem_yearWindow (cy : Int) (df : Table) (r : Row) :
    r ∈ (yearWindow cy df).rows ↔
      r ∈ df.rows ∧ (r.get .year).geInt (cy - 20) = true := by
  simp [yearWindow, List.mem_filter]

lemma coerceRows_mem (cols : List Col) (rows out : List Row)
    (h : coerceRows cols rows = some out) :
    ∀ r ∈ out, ∃ r0 ∈ rows, coerceRow cols r0 = some r := by
  induction rows generalizing out with
  | nil =>
    simp only [coerceRows, Option.some.injEq] at h
    subst h
    simp
  | cons a as ih =>
    simp only [coerceRows] at h
    cases ha : coerceRow cols a with
    | none => rw [ha] at h; exact Option.noConfusion h
    | some a' =>
      cases has : coerceRows cols as with
      | none => rw [ha, has] at h; exact Option.noConfusion h
      | some as' =>
        rw [ha, has] at h
        injection h with h
        subst h
        intro r hr
        rcases List.mem_cons.mp hr with h1 | h1
        · exact ⟨a, List.mem_cons_self a as, by rw [ha, h1]⟩
        · obtain ⟨r0, hr0, hcr⟩ := ih as' has r h1
          exact ⟨r0, List.mem_cons_of_mem a hr0, hcr⟩

lemma coerceRow_eq (cols : List Col) (r r' : Row) (h : coerceRow cols r = some r') :
    (∃ y, astypeInt r.year = some y ∧ r'.year = Value.num y) ∧
    r'.make = r.make ∧ r'.city08 = r.city08 ∧ r'.highway08 = r.highway08 ∧
    r'.comb08 = r.comb08 ∧
    r'.cylinders = (if Col.cylinders ∈ cols then toNumericCoerce r.cylinders else r.cylinders) ∧
    r'.displ = (if Col.displ ∈ cols then toNumericCoerce r.displ else r.displ) := by
  unfold coerceRow at h
  rw [Option.map_eq_some'] at h
  obtain ⟨y, hy, h⟩ := h
  subst h
  exact ⟨⟨y, hy, rfl⟩, rfl, rfl, rfl, rfl, rfl, rfl⟩

lemma clean_elim (cy : Int) (df out : Table) (h : clean cy df = some out) :
    ∃ d rs, dropnaStep (mpgStep (projectStep df)) = some d ∧
      Col.year ∈ d.cols ∧ coerceRows d.cols d.rows = some rs ∧
      out = yearWindow cy { cols := d.cols, rows := rs } := by
  unfold clean at h
  rw [Option.bind_eq_some] at h
  obtain ⟨d, hd, h⟩ := h
  rw [Option.map_eq_some'] at h
  obtain ⟨d2, hc, h⟩ := h
  unfold coerceTypes at hc
  split at hc
  · rename_i hy
    rw [Option.map_eq_some'] at hc
    obtain ⟨rs, hcr, hc⟩ := hc
    exact ⟨d, rs, hd, hy, hcr, by rw [← h, ← hc]⟩
  · exact Option.noConfusion hc

lemma clean_cols (cy : Int) (df out : Table) (h : clean cy df = some out) :
    out.cols = essential_cols.filter (fun c => decide (c ∈ df.cols)) := by
  obtain ⟨d, rs, hd, hy, hcr, hout⟩ := clean_elim cy df out h
  obtain ⟨_, _, hcols, _⟩ := dropnaStep_eq _ _ hd
  rw [hout]
  show d.cols = _
  rw [hcols]
  rfl

lemma clean_mem (cy : Int) (df out : Table) (h : clean cy df = some out)
    (r : Row) (hr : r ∈ out.rows) :
    ∃ r0 ∈ df.rows,
      (∃ y, astypeInt (r0.get Col.year) = some y ∧
        r.get Col.year = Value.num y ∧ cy - 20 ≤ y) ∧
      r.get Col.make = r0.get Col.make ∧ (r0.get Col.make).isNull = false ∧
      (∀ c ∈ mpg_cols, r.get c = r0.get c ∧
        (c ∈ out.cols → (r0.get c).gtZero = true)) ∧
      (Col.cylinders ∈ out.cols →
        r.get Col.cylinders = toNumericCoerce (r0.get Col.cylinders)) ∧
      (Col.displ ∈ out.cols →
        r.get Col.displ = toNumericCoerce (r0.get Col.displ)) := by
  obtain ⟨d, rs, hd, hy, hcr, hout⟩ := clean_elim cy df out h
  obtain ⟨hyc, hmc, hcols, hrows⟩ := dropnaStep_eq _ _ hd
  subst hout
  rw [mem_yearWindow] at hr
  obtain ⟨hrs, hge⟩ := hr
  obtain ⟨r0, hr0, hcoe⟩ := coerceRows_mem _ _ _ hcr r hrs
  obtain ⟨hr0m, hynull, hmnull, hmpgnull⟩ := hrows r0 hr0
  rw [mem_mpgStep] at hr0m
  obtain ⟨hr0p, hgt⟩ := hr0m
  obtain ⟨⟨y, hay, hry⟩, hmk, hc8, hh8, hcb8, hcyl, hdis⟩ := coerceRow_eq _ _ _ hcoe
  have houtcols : ∀ c : Col,
      c ∈ (yearWindow cy { cols := d.cols, rows := rs }).cols →
      c ∈ (projectStep df).cols := by
    intro c hmem
    have hmem' : c ∈ d.cols := hmem
    rw [hcols] at hmem'
    exact hmem'
  refine ⟨r0, hr0p, ⟨y, hay, hry, ?_⟩, hmk, hmnull, ?_, ?_, ?_⟩
  · have hgey : (Value.num y).geInt (cy - 20) = true := by
      have hgy : r.get Col.year = Value.num y := hry
      rw [hgy] at hge
      exact hge
    simpa [Value.geInt] using hgey
  · intro c hc
    fin_cases hc
    · exact ⟨hc8, fun hmem => hgt _ (by simp [mpg_cols]) (houtcols _ hmem)⟩
    · exact ⟨hh8, fun hmem => hgt _ (by simp [mpg_cols]) (houtcols _ hmem)⟩
    · exact ⟨hcb8, fun hmem => hgt _ (by simp [mpg_cols]) (houtcols _ hmem)⟩
  · intro hmem
    have hmem' : Col.cylinders ∈ d.cols := hmem
    rw [if_pos hmem'] at hcyl
    exact hcyl
  · intro hmem
    have hmem' : Col.displ ∈ d.cols := hmem
    rw [if_pos hmem'] at hdis
    exact hdis

/-! ### Helper lemmas about the filter block -/

lemma mem_yearRangeFilter (lo hi : Int) (rows : List Row) (r : Row) :
    r ∈ yearRangeFilter lo hi rows ↔
      r ∈ rows ∧ (r.get .year).geInt lo = true ∧ (r.get .year).leInt hi = true := by
  simp [yearRangeFilter, List.mem_filter, Bool.and_eq_true, and_assoc]

lemma mem_makeFilter (m : String) (rows : List Row) (r : Row) :
    r ∈ makeFilter m rows ↔ r ∈ rows ∧ r.get Col.make = Value.str m := by
  simp [makeFilter, List.mem_filter]

lemma mem_fuelTypeFilter (ft : String) (rows : List Row) (r : Row) :
    r ∈ fuelTypeFilter ft rows ↔ r ∈ rows ∧ r.get Col.fuelType = Value.str ft := by
  simp [fuelTypeFilter, List.mem_filter]

lemma mem_cylindersFilter (n : Int) (rows : List Row) (r : Row) :
    r ∈ cylindersFilter n rows ↔ r ∈ rows ∧ r.get Col.cylinders = Value.num n := by
  simp [cylindersFilter, List.mem_filter]

/-! ### Claim theorems -/

/-- C1 (amended): every record of a successfully cleaned Dataset has a
non-null integer `year` with `currentYear - 20 <= year` and a non-null
`make`. (The source applies no upper bound `year <= currentYear`.) -/
theorem C1_year_make_invariant (cy : Int) (df out : Table)
    (h : clean cy df = some out) :
    ∀ r ∈ out.rows,
      (∃ n, r.get Col.year = Value.num n ∧ cy - 20 ≤ n) ∧
      (r.get Col.make).isNull = false := by
  intro r hr
  obtain ⟨r0, _, ⟨y, _, hry, hgey⟩, hmake, hmnull, _, _, _⟩ :=
    clean_mem cy df out h r hr
  refine ⟨⟨y, hry, hgey⟩, ?_⟩
  rw [hmake]
  exact hmnull

/-- C1 witness: the invariant holds for a concrete record of a concrete
successful load. -/
theorem C1_year_make_invariant_witness :
    (∃ n, baseRow.get Col.year = Value.num n ∧ 2026 - 20 ≤ n) ∧
    (baseRow.get Col.make).isNull = false :=
  C1_year_make_invariant 2026 okTable okTable (by decide) baseRow (by decide)

/-- C1 counterexample: at current year 2026 a record with model year 2031
survives the load, so `year <= currentYear` fails on the code. -/
theorem C1_counterexample :
    clean 2026 futureTable = some futureTable ∧
    futureRow ∈ futureTable.rows ∧
    futureRow.get Col.year = Value.num 2031 ∧ ¬((2031 : Int) ≤ 2026) := by
  exact ⟨by decide, by decide, by decide, by decide⟩

/-- C2: in a successfully cleaned Dataset every present MPG column holds a
strictly positive number in every record; and the synthetic three-row frame
with one `city08 = 0` row loads to exactly two rows. -/
theorem C2_mpg_positive (cy : Int) (df out : Table)
    (h : clean cy df = some out) :
    (∀ r ∈ out.rows, ∀ c ∈ mpg_cols, c ∈ out.cols →
      ∃ n, r.get c = Value.num n ∧ 0 < n) ∧
    (clean 2026 syntheticTable).map (fun t => t.rows.length) = some 2 := by
  refine ⟨?_, by decide⟩
  intro r hr c hc hcc
  obtain ⟨r0, _, _, _, _, hmpg, _, _⟩ := clean_mem cy df out h r hr
  obtain ⟨heq, hgt⟩ := hmpg c hc
  have hpos := hgt hcc
  cases hv : r0.get c with
  | num n =>
    refine ⟨n, by rw [heq, hv], ?_⟩
    rw [hv] at hpos
    simpa [Value.gtZero] using hpos
  | str s => rw [hv] at hpos; simp [Value.gtZero] at hpos
  | null => rw [hv] at hpos; simp [Value.gtZero] at hpos

/-- C2 witness: the MPG invariant at a concrete successful load. -/
theorem C2_mpg_positive_witness :
    (∀ r ∈ okTable.rows, ∀ c ∈ mpg_cols, c ∈ okTable.cols →
      ∃ n, r.get c = Value.num n ∧ 0 < n) ∧
    (clean 2026 syntheticTable).map (fun t => t.rows.length) = some 2 :=
  C2_mpg_positive 2026 okTable okTable (by decide)

/-- C3 (amended): the loader never inspects the HTTP status code — the load
result is the same function of the body whatever the status — and only a
raised transport error (not a non-2xx status) makes the fetch itself fail;
all failures share the single undifferentiated `except` path returning no
Dataset. -/
theorem C3_status_never_inspected (cy : Int) (s1 s2 : Nat) (b : Body) :
    load_pipeline cy (.response s1 b) = load_pipeline cy (.response s2 b) ∧
    load_pipeline cy .transportError = none := by
  refine ⟨?_, rfl⟩
  cases b with
  | badArchive => rfl
  | archive es =>
    cases es with
    | nil => rfl
    | cons e es => cases e <;> rfl

/-- C3 counterexample: a response with non-2xx status 404 whose body is a
valid one-entry archive loads successfully — no network failure is reported
and a Dataset is returned. -/
theorem C3_counterexample :
    load_pipeline 2026
      (FetchResult.response 404 (Body.archive [Entry.csv okTable])) =
        some okTable ∧
    ¬(200 ≤ 404 ∧ 404 ≤ 299) := by
  exact ⟨by decide, by decide⟩

/-- C4 (amended): on a failing load the body returns `None` and
`@st.cache_data` memoizes that `None`: the cache is written, and a second
call returns the memoized `None` without re-executing the fetch pipeline.
No Dataset is cached. -/
theorem C4_failure_memoized (cy : Int) (f : FetchResult) (s : LoadState)
    (hs : s.cache = none) (hf : load_pipeline cy f = none) :
    (load_data cy f s).1 = none ∧
    (load_data cy f s).2.cache = some none ∧
    (load_data cy f ((load_data cy f s).2)).1 = none ∧
    (load_data cy f ((load_data cy f s).2)).2.fetchCount =
      (load_data cy f s).2.fetchCount := by
  simp [load_data, hs, hf]

/-- C4 witness: the amended behaviour at a concrete failing load. -/
theorem C4_failure_memoized_witness :
    (load_data 2026 .transportError initState).1 = none ∧
    (load_data 2026 .transportError initState).2.cache = some none ∧
    (load_data 2026 .transportError
      ((load_data 2026 .transportError initState).2)).1 = none ∧
    (load_data 2026 .transportError
      ((load_data 2026 .transportError initState).2)).2.fetchCount =
      (load_data 2026 .transportError initState).2.fetchCount :=
  C4_failure_memoized 2026 .transportError initState (by decide) (by decide)

/-- C4 counterexample: after a failing load (transport error) the cache is
not left unchanged, and a second call performs no new fetch — contradicting
the claim that nothing is cached and the pipeline re-executes. -/
theorem C4_counterexample :
    (load_data 2026 .transportError initState).2 ≠ initState ∧
    (load_data 2026 .transportError
      ((load_data 2026 .transportError initState).2)).2.fetchCount =
      (load_data 2026 .transportError initState).2.fetchCount := by
  exact ⟨by decide, by decide⟩

/-- C5: `load_data` is memoized — a second sequential call returns the very
same result and leaves the cache state (and so the fetch count) unchanged:
the pipeline is not re-run. -/
theorem C5_memoized (cy : Int) (f : FetchResult) (s : LoadState) :
    (load_data cy f ((load_data cy f s).2)).1 = (load_data cy f s).1 ∧
    (load_data cy f ((load_data cy f s).2)).2 = (load_data cy f s).2 := by
  cases hs : s.cache <;> simp [load_data, hs]

/-- C6: the loader projects onto the 14-column allow-list keeping exactly
the allow-listed columns the source has; a frame missing `cylinders` loads
successfully with no `cylinders` column in the result. -/
theorem C6_column_projection (cy : Int) (df out : Table)
    (h : clean cy df = some out) :
    out.cols = essential_cols.filter (fun c => decide (c ∈ df.cols)) ∧
    (clean 2026 noCylTable = some { cols := noCylCols, rows := [baseRow] } ∧
      Col.cylinders ∉ noCylCols) := by
  exact ⟨clean_cols cy df out h, by decide, by decide⟩

/-- C6 witness: the projection equation at a concrete successful load. -/
theorem C6_column_projection_witness :
    okTable.cols = essential_cols.filter (fun c => decide (c ∈ okTable.cols)) ∧
    (clean 2026 noCylTable = some { cols := noCylCols, rows := [baseRow] } ∧
      Col.cylinders ∉ noCylCols) :=
  C6_column_projection 2026 okTable okTable (by decide)

/-- C7: in a successfully cleaned Dataset every record's `year` is an
integer, and when present the `cylinders` / `displ` cells are the
`to_numeric(errors='coerce')` image of the source cells (non-numeric values
became null); a frame whose only row has the non-numeric `cylinders` cell
"four" still loads, that cell becoming null. -/
theorem C7_type_coercion (cy : Int) (df out : Table)
    (h : clean cy df = some out) :
    (∀ r ∈ out.rows, ∃ r0 ∈ df.rows,
      (∃ n, r.get Col.year = Value.num n) ∧
      (Col.cylinders ∈ out.cols →
        r.get Col.cylinders = toNumericCoerce (r0.get Col.cylinders)) ∧
      (Col.displ ∈ out.cols →
        r.get Col.displ = toNumericCoerce (r0.get Col.displ))) ∧
    (clean 2026 badCylTable =
        some { cols := essential_cols, rows := [badCylOutRow] } ∧
      badCylOutRow.get Col.cylinders = Value.null ∧
      badCylRow.get Col.cylinders = Value.str "four") := by
  refine ⟨?_, by decide, by decide, by decide⟩
  intro r hr
  obtain ⟨r0, hr0, ⟨y, _, hry, _⟩, _, _, _, hcyl, hdis⟩ :=
    clean_mem cy df out h r hr
  exact ⟨r0, hr0, ⟨y, hry⟩, hcyl, hdis⟩

/-- C7 witness: the coercion facts at a concrete successful load. -/
theorem C7_type_coercion_witness :
    (∀ r ∈ okTable.rows, ∃ r0 ∈ okTable.rows,
      (∃ n, r.get Col.year = Value.num n) ∧
      (Col.cylinders ∈ okTable.cols →
        r.get Col.cylinders = toNumericCoerce (r0.get Col.cylinders)) ∧
      (Col.displ ∈ okTable.cols →
        r.get Col.displ = toNumericCoerce (r0.get Col.displ))) ∧
    (clean 2026 badCylTable =
        some { cols := essential_cols, rows := [badCylOutRow] } ∧
      badCylOutRow.get Col.cylinders = Value.null ∧
      badCylRow.get Col.cylinders = Value.str "four") :=
  C7_type_coercion 2026 okTable okTable (by decide)

/-- C8: the filter block has AND semantics — a record is in the filtered
view iff it is in the Dataset and satisfies the year range and every
provided constraint. The two hypotheses record that `main` only offers the
fuelType / cylinders selectboxes when the column exists, so a provided
constraint implies a present column. -/
theorem C8_filter_and_semantics (cols : List Col) (spec : FilterSpec)
    (rows : List Row) (r : Row)
    (hft : spec.fuelType.isSome = true → Col.fuelType ∈ cols)
    (hcyl : spec.cylinders.isSome = true → Col.cylinders ∈ cols) :
    r ∈ applyFilters cols spec rows ↔ r ∈ rows ∧ specMatches spec r := by
  obtain ⟨lo, hi, mk, ft, cyl⟩ := spec
  cases mk <;> cases ft <;> cases cyl <;>
    simp_all [applyFilters, specMatches, mem_yearRangeFilter, mem_makeFilter,
      mem_fuelTypeFilter, mem_cylindersFilter, Option.isSome] <;>
    tauto

/-- C8 witness: the equivalence at a concrete dataset and a fully provided
filter specification. -/
theorem C8_filter_and_semantics_witness :
    baseRow ∈ applyFilters essential_cols
        ⟨2006, 2026, some "Toyota", some "Regular", some 4⟩ [baseRow] ↔
      baseRow ∈ [baseRow] ∧
        specMatches ⟨2006, 2026, some "Toyota", some "Regular", some 4⟩ baseRow :=
  C8_filter_and_semantics essential_cols
    ⟨2006, 2026, some "Toyota", some "Regular", some 4⟩ [baseRow] baseRow
    (fun _ => by decide) (fun _ => by decide)

/-- C9: the make filter and the fuelType filter commute: applying
`{make=X}` then `{fuelType=Y}` gives the same record list as the reverse
order. -/
theorem C9_filter_commute (X Y : String) (rows : List Row) :
    fuelTypeFilter Y (makeFilter X rows) = makeFilter X (fuelTypeFilter Y rows) := by
  simp only [fuelTypeFilter, makeFilter, List.filter_filter]
  exact List.filter_congr (fun r _ => Bool.and_comm _ _)

/-- C10: when the rows surviving the MPG-positivity and null-dropping steps
are empty, the remaining pipeline steps still succeed and the load returns
an empty Dataset rather than an error. -/
theorem C10_empty_dataset_ok (cy : Int) (df d : Table)
    (h : dropnaStep (mpgStep (projectStep df)) = some d) (hrows : d.rows = []) :
    clean cy df = some { cols := d.cols, rows := [] } := by
  obtain ⟨hy, hm, hcols, _⟩ := dropnaStep_eq _ _ h
  have hy' : Col.year ∈ d.cols := by rw [hcols]; exact hy
  have hct : coerceTypes d = some { cols := d.cols, rows := [] } := by
    unfold coerceTypes
    rw [if_pos hy', hrows]
    rfl
  unfold clean
  rw [h]
  simp [hct, yearWindow]

/-- C10 witness: a frame whose only row fails MPG positivity loads to an
empty Dataset. -/
theorem C10_empty_dataset_ok_witness :
    clean 2026 zeroMpgTable = some { cols := essential_cols, rows := [] } :=
  C10_empty_dataset_ok 2026 zeroMpgTable { cols := essential_cols, rows := [] }
    (by decide) rfl
